import Mathlib

/-!
Shallow embedding of the MalTrackarr service (src/app.py): OAuth token
lifecycle management, paginated watch-list fetching with single-retry 401
recovery, cross-reference map construction, and output-list merging.

Conventions of the embedding:
* the process-global `config` dictionary together with the JSON file it is
  persisted to is modelled as a state `St` with an in-memory copy (`mem`)
  and a durable copy (`disk`); `load_config` sets `mem := disk` and
  `save_config` sets `disk := mem`;
* the wall clock (`now_ts()`) is an explicit `now : Int` parameter;
* network interactions are explicit oracles: token-endpoint exchanges are
  `Option TokenResp` values (`none` models a non-200 answer, which the
  Python helpers turn into `None`), and the paginated list endpoint is a
  trace `List PageResp` consumed one response per HTTP GET;
* Python exceptions are `Except String`.
-/

/-- Truthiness of an optional string, as Python evaluates `if not x` for a
value obtained by `dict.get`: absent (`None`) and the empty string are falsy. -/
def truthyS : Option String → Bool
  | none => false
  | some s => s ≠ ""

/-- The credential record persisted in `config.json` (fields read or written
by src/app.py); `extra` stands for any further keys of the JSON object,
which the core never touches. -/
structure Config where
  client_id : Option String := none
  client_secret : Option String := none
  refresh_token : Option String := none
  authorization_code : Option String := none
  code_verifier : Option String := none
  access_token : Option String := none
  expires_at : Option Int := none
  username : Option String := none
  extra : List (String × String) := []
deriving Repr, DecidableEq

/-- Program state: the in-memory `config` dictionary and its durable copy. -/
structure St where
  mem : Config
  disk : Config
deriving Repr, DecidableEq

/-- `load_config()`: replace the in-memory record by the durable one. -/
def load_config (st : St) : St := { st with mem := st.disk }

/-- `save_config()`: persist the in-memory record. -/
def save_config (st : St) : St := { st with disk := st.mem }

/-- A parsed JSON body returned by the OAuth token endpoint with status 200;
`extra` stands for further keys such as `token_type`. -/
structure TokenResp where
  access_token : Option String := none
  refresh_token : Option String := none
  expires_in : Option Int := none
  extra : List (String × String) := []
deriving Repr, DecidableEq

/-- Truthiness of the parsed token-response dictionary (`if token_resp:`):
an entirely empty JSON object is falsy. -/
def truthyTR (tr : TokenResp) : Bool :=
  tr.access_token.isSome || tr.refresh_token.isSome || tr.expires_in.isSome ||
    !tr.extra.isEmpty

/-- `token_is_valid()` (src/app.py:42): the token counts as valid when
`access_token` is truthy and `now_ts() + 60 < int(config.get("expires_at", 0))`. -/
def token_is_valid (now : Int) (c : Config) : Bool :=
  truthyS c.access_token && (now + 60 < c.expires_at.getD 0)

/-- `apply_token_response(token_resp)` (src/app.py:119): require a truthy
`access_token`, store it, store `refresh_token` only when truthy, set
`expires_at := now + int(token_resp.get("expires_in", 0))`, then persist. -/
def apply_token_response (tr : TokenResp) (now : Int) (st : St) : Except String St :=
  if !truthyS tr.access_token then
    .error "token response did not include access_token"
  else
    let m := st.mem
    let m := { m with access_token := tr.access_token }
    let m := if truthyS tr.refresh_token then { m with refresh_token := tr.refresh_token } else m
    let m := { m with expires_at := some (now + tr.expires_in.getD 0) }
    save_config { mem := m, disk := st.disk } |> .ok

/-- The authorization-code arm of `ensure_token` (src/app.py:107-116): if
`authorization_code` and `code_verifier` are truthy, attempt the exchange;
otherwise, or when the exchange yields nothing usable, raise.  `calls` counts
network calls already made by the enclosing `ensure_token` run. -/
def code_exchange_flow (now : Int) (codeResp : Option TokenResp) (st : St)
    (calls : Nat) : Except String (St × Nat) :=
  if truthyS st.mem.authorization_code && truthyS st.mem.code_verifier then
    match codeResp with
    | some tr =>
      if truthyTR tr then
        match apply_token_response tr now st with
        | .ok st2 => .ok (st2, calls + 1)
        | .error e => .error e
      else
        .error "Could not obtain access token. Provide a valid refresh_token or authorization_code+code_verifier in config."
    | none =>
      .error "Could not obtain access token. Provide a valid refresh_token or authorization_code+code_verifier in config."
  else
    .error "Could not obtain access token. Provide a valid refresh_token or authorization_code+code_verifier in config."

/-- `ensure_token()` (src/app.py:83): reload the record, return at once if the
stored token is valid, else require client credentials and try the refresh
flow then the authorization-code flow.  `refreshResp` / `codeResp` are the
token endpoint answers were the corresponding request issued (`none` models a
non-200 status).  Returns the new state and the number of network calls made. -/
def ensure_token (now : Int) (refreshResp codeResp : Option TokenResp) (st : St) :
    Except String (St × Nat) :=
  let st := load_config st
  if token_is_valid now st.mem then .ok (st, 0)
  else if !(truthyS st.mem.client_id && truthyS st.mem.client_secret) then
    .error "client_id and client_secret must be present in config"
  else if truthyS st.mem.refresh_token then
    match refreshResp with
    | some tr =>
      if truthyTR tr then
        match apply_token_response tr now st with
        | .ok st2 => .ok (st2, 1)
        | .error e => .error e
      else
        code_exchange_flow now codeResp st 1
    | none => code_exchange_flow now codeResp st 1
  else
    code_exchange_flow now codeResp st 0

/-- The `node` object of a raw watch-list entry, with the fields the merger
reads (the data model declares `id` an integer and `title` a string). -/
structure Node where
  id : Option Int := none
  title : Option String := none
deriving Repr, DecidableEq

/-- A raw watch-list entry: `item.get("node") or {}` treats an absent or
empty `node` alike, so `none` stands for both. -/
structure AItem where
  node : Option Node := none
deriving Repr, DecidableEq

/-- One HTTP response of the watch-list endpoint: status, body text, the
parsed `data` array and the parsed `paging.next` URL. -/
structure PageResp where
  status : Nat
  text : String := ""
  data : List AItem := []
  next : Option String := none
deriving Repr, DecidableEq

/-- One outgoing GET request of the list fetcher: URL, the query parameters
(`status` and `limit`, supplied only on the very first request), and the
bearer token taken from the in-memory record when the request is issued. -/
structure ReqLog where
  url : String
  params : Option (String × Nat) := none
  token : Option String := none
deriving Repr, DecidableEq

/-- Result of a `fetch_all_animelist` run: the returned items or the raised
error, the final state, how many 401-recovery procedures ran, and the log of
outgoing list-endpoint requests. -/
structure FetchOut where
  result : Except String (List AItem)
  state : St
  recoveries : Nat
  log : List ReqLog
deriving Repr

/-- The token discard of the 401 recovery (src/app.py:158-159):
`config.pop("access_token", None)` followed by `save_config()`. -/
def discard_access_token (st : St) : St :=
  save_config { st with mem := { st.mem with access_token := none } }

/-- The `while url:` loop of `fetch_all_animelist` (src/app.py:151-174).
`trace` is the sequence of upstream responses consumed one per GET; `env k`
is the pair of token-endpoint answers available to the `k`-th `ensure_token`
invocation of the enclosing request.  On a 401 the loop discards the token,
persists, re-acquires via `ensure_token`, and retries the same URL once with
no query parameters; a non-200 response (after the single retry, if any)
raises; otherwise `data` is appended and `paging.next` is followed until
absent.  An exhausted trace while a page is still due is reported as a
network failure. -/
def fetch_pages (now : Int) (env : Nat → Option TokenResp × Option TokenResp) :
    List PageResp → Nat → St → String → Option (String × Nat) → List AItem →
    Nat → List ReqLog → FetchOut
  | [], _, st, url, p, _, recov, log =>
    { result := .error "network error: no response from upstream",
      state := st, recoveries := recov,
      log := log ++ [{ url := url, params := p, token := st.mem.access_token }] }
  | r :: rest, k, st, url, p, acc, recov, log =>
    let log := log ++ [{ url := url, params := p, token := st.mem.access_token }]
    if r.status = 401 then
      let st1 := discard_access_token st
      match ensure_token now (env k).1 (env k).2 st1 with
      | .error e =>
        { result := .error e, state := st1, recoveries := recov + 1, log := log }
      | .ok (st2, _) =>
        match rest with
        | [] =>
          { result := .error "network error: no response from upstream",
            state := st2, recoveries := recov + 1,
            log := log ++ [{ url := url, token := st2.mem.access_token }] }
        | r2 :: rest2 =>
          let log := log ++ [{ url := url, token := st2.mem.access_token }]
          if r2.status ≠ 200 then
            { result := .error ("Failed to fetch animelist: " ++ toString r2.status ++ " " ++ r2.text),
              state := st2, recoveries := recov + 1, log := log }
          else
            match r2.next with
            | none =>
              { result := .ok (acc ++ r2.data), state := st2,
                recoveries := recov + 1, log := log }
            | some u2 =>
              fetch_pages now env rest2 (k + 1) st2 u2 none (acc ++ r2.data)
                (recov + 1) log
    else
      if r.status ≠ 200 then
        { result := .error ("Failed to fetch animelist: " ++ toString r.status ++ " " ++ r.text),
          state := st, recoveries := recov, log := log }
      else
        match r.next with
        | none =>
          { result := .ok (acc ++ r.data), state := st, recoveries := recov,
            log := log }
        | some u2 =>
          fetch_pages now env rest k st u2 none (acc ++ r.data) recov log

/-- Base URL of the watch-list API (src/app.py:14). -/
def MAL_API_BASE : String := "https://api.myanimelist.net/v2/"

/-- `fetch_all_animelist(username, status)` (src/app.py:139): ensure a token,
then run the paging loop starting from the user's animelist URL with query
parameters `status` and `limit=100` on the first request only. -/
def fetch_all_animelist (now : Int) (env : Nat → Option TokenResp × Option TokenResp)
    (username status : String) (trace : List PageResp) (st : St) : FetchOut :=
  match ensure_token now (env 0).1 (env 0).2 st with
  | .error e => { result := .error e, state := st, recoveries := 0, log := [] }
  | .ok (st1, _) =>
    fetch_pages now env trace 1 st1
      (MAL_API_BASE ++ "users/" ++ username ++ "/animelist")
      (some (status, 100)) [] 0 []

/-- A primitive JSON value as it occurs in the cross-reference document's
records (numbers, strings, null). -/
inductive JPrim
  | jnum (n : Int)
  | jstr (s : String)
  | jnull
deriving Repr, DecidableEq

/-- A top-level value of the cross-reference document: a JSON object (an
association list of primitive fields) or a bare primitive. -/
inductive JEntry
  | dict (fields : List (String × JPrim))
  | prim (p : JPrim)
deriving Repr, DecidableEq

/-- Decimal digits folded into a number; `none` on any non-digit. -/
def decDigits : List Char → Nat → Option Nat
  | [], acc => some acc
  | c :: cs, acc =>
    if c.isDigit then decDigits cs (acc * 10 + (c.toNat - 48)) else none

/-- Python `int(s)` on a string: an optional sign followed by at least one
decimal digit (surrounding whitespace and underscore separators, which
CPython also tolerates, do not occur in the data and are not modelled). -/
def pyIntOfString (s : String) : Option Int :=
  match s.data with
  | [] => none
  | '-' :: cs =>
    match cs with
    | [] => none
    | _ => (decDigits cs 0).map (fun n => -(n : Int))
  | '+' :: cs =>
    match cs with
    | [] => none
    | _ => (decDigits cs 0).map (fun n => (n : Int))
  | cs => (decDigits cs 0).map (fun n => (n : Int))

/-- Python `int(x)` on a primitive JSON value: an integer stays itself, a
string is parsed as a decimal integer, anything else raises (here: `none`). -/
def pyInt : JPrim → Option Int
  | .jnum n => some n
  | .jstr s => pyIntOfString s
  | .jnull => none

/-- First value bound to key `k` in a JSON object (`fs[k]` / `k in fs`). -/
def lookupField (fs : List (String × JPrim)) (k : String) : Option JPrim :=
  (fs.find? (fun p => p.1 = k)).map (fun p => p.2)

/-- The `mal_id`-extraction half of the loop body of `fetch_anime_ids_map`
(src/app.py:187-192): when the value is an object containing a `mal_id`
field, attempt `int(val["mal_id"])`; exceptions yield `None`. -/
def mal_id_from_val : JEntry → Option Int
  | .dict fs =>
    match lookupField fs "mal_id" with
    | some p => pyInt p
    | none => none
  | .prim _ => none

/-- Key derivation for one document entry (src/app.py:186-197): prefer a
parseable `mal_id` embedded in the value, fall back to parsing the top-level
string key, give up (`none`, entry skipped) when neither parses. -/
def deriveKey (key : String) (val : JEntry) : Option Int :=
  match mal_id_from_val val with
  | some n => some n
  | none => pyIntOfString key

/-- Python dictionary insertion `d[k] = v`: overwrite in place when the key
exists, else append the binding. -/
def dinsert (k : Int) (v : JEntry) (m : List (Int × JEntry)) : List (Int × JEntry) :=
  if m.any (fun p => p.1 = k) then
    m.map (fun p => if p.1 = k then (k, v) else p)
  else m ++ [(k, v)]

/-- Python dictionary lookup `d.get(k)`. -/
def dget (m : List (Int × JEntry)) (k : Int) : Option JEntry :=
  (m.find? (fun p => p.1 = k)).map (fun p => p.2)

/-- The map-building loop of `fetch_anime_ids_map` (src/app.py:184-199) over
an already fetched and parsed document `payload` (iterated in document
order): derive a key per entry, skip entries without one, and store
`mal_map[mal_id] = val`. -/
def fetch_anime_ids_map (payload : List (String × JEntry)) : List (Int × JEntry) :=
  payload.foldl
    (fun m kv =>
      match deriveKey kv.1 kv.2 with
      | some k => dinsert k kv.2 m
      | none => m) []

/-- Stated from the claim: the value of the last document entry (in
iteration order) that derives the integer key `k`. -/
def last_derived (payload : List (String × JEntry)) (k : Int) : Option JEntry :=
  ((payload.filter (fun e => deriveKey e.1 e.2 = some k)).map (fun e => e.2)).getLast?

/-- Python truthiness of a primitive JSON value. -/
def truthyJ : JPrim → Bool
  | .jnum n => n ≠ 0
  | .jstr s => s ≠ ""
  | .jnull => false

/-- The test `x not in (None, "")` of src/app.py:217. -/
def notNoneOrEmpty : JPrim → Bool
  | .jnull => false
  | .jstr s => s ≠ ""
  | .jnum _ => true

/-- Python truthiness of a top-level document value (`if mapped:`). -/
def truthyE : JEntry → Bool
  | .dict fs => fs ≠ []
  | .prim p => truthyJ p

/-- Whether a document value is a JSON object. -/
def isDictE : JEntry → Bool
  | .dict _ => true
  | .prim _ => false

/-- Substring test, Python `needle in hay` for strings. -/
def strContains (hay needle : String) : Bool :=
  (hay.splitOn needle).length ≠ 1

/-- An output record (src/app.py:212-221): `title` and `malId` always, `id`
(from `tvdb_id`) and `imdb_id` only when enrichment supplies them. -/
structure OutEntry where
  title : Option String
  malId : Int
  id : Option JPrim := none
  imdb_id : Option JPrim := none
deriving Repr, DecidableEq

/-- Enrichment of one retained entry against its truthy crossref value
(src/app.py:215-221).  On an object, add `id` when `tvdb_id` is present and
not `None`/empty and `imdb_id` when present and truthy.  On a bare string
Python's `"tvdb_id" in mapped` degenerates to a substring test and a hit then
raises `AttributeError` at `mapped.get`; on a truthy number `in` itself
raises `TypeError`. -/
def enrich (mapped : JEntry) (title : Option String) (malId : Int) :
    Except String OutEntry :=
  match mapped with
  | .dict fs =>
    .ok { title := title, malId := malId,
          id :=
            match lookupField fs "tvdb_id" with
            | some p => if notNoneOrEmpty p then some p else none
            | none => none,
          imdb_id :=
            match lookupField fs "imdb_id" with
            | some p => if truthyJ p then some p else none
            | none => none }
  | .prim (.jstr s) =>
    if strContains s "tvdb_id" then
      .error "AttributeError: str object has no attribute get"
    else if strContains s "imdb_id" then
      .error "AttributeError: str object has no attribute get"
    else .ok { title := title, malId := malId }
  | .prim (.jnum _) =>
    .error "TypeError: argument of type int is not iterable"
  | .prim .jnull => .ok { title := title, malId := malId }

/-- `build_output_list(animelist_items, anime_ids_map)` (src/app.py:202):
per item take `node` (or `{}` when falsy), skip the item unless `node["id"]`
is truthy, emit `title`/`malId`, and enrich from the map when the looked-up
value is truthy; an exception aborts the whole loop. -/
def build_output_list : List AItem → List (Int × JEntry) → Except String (List OutEntry)
  | [], _ => .ok []
  | item :: rest, m =>
    let node := item.node.getD {}
    match node.id with
    | none => build_output_list rest m
    | some i =>
      if i = 0 then build_output_list rest m
      else
        match dget m i with
        | none =>
          match build_output_list rest m with
          | .ok tl => .ok ({ title := node.title, malId := i } :: tl)
          | .error e => .error e
        | some mv =>
          if truthyE mv then
            match enrich mv node.title i with
            | .ok e =>
              match build_output_list rest m with
              | .ok tl => .ok (e :: tl)
              | .error e2 => .error e2
            | .error e => .error e
          else
            match build_output_list rest m with
            | .ok tl => .ok ({ title := node.title, malId := i } :: tl)
            | .error e => .error e

/-- The effect of `build_output_list` on a single item when no exception can
arise: `none` when the item is dropped, else the emitted record. -/
def merge_item (m : List (Int × JEntry)) (item : AItem) : Option OutEntry :=
  match (item.node.getD {}).id with
  | none => none
  | some i =>
    if i = 0 then none
    else
      match dget m i with
      | none => some { title := (item.node.getD {}).title, malId := i }
      | some mv =>
        if truthyE mv then
          match enrich mv (item.node.getD {}).title i with
          | .ok e => some e
          | .error _ => none
        else some { title := (item.node.getD {}).title, malId := i }

/-- Shape of a successful `apply_token_response`: the access token was truthy
and is stored, `expires_at` becomes `now + expires_in` (default 0), and the
result is persisted (`disk = mem`). -/
theorem apply_token_response_ok_shape {tr : TokenResp} {now : Int} {st st2 : St}
    (h : apply_token_response tr now st = .ok st2) :
    truthyS tr.access_token = true ∧
    st2.mem.access_token = tr.access_token ∧
    st2.mem.expires_at = some (now + tr.expires_in.getD 0) ∧
    st2.disk = st2.mem := by
  unfold apply_token_response at h
  by_cases hA : truthyS tr.access_token
  · by_cases hR : truthyS tr.refresh_token <;>
      simp [hA, hR, save_config] at h <;>
      simp [hA, ← h]
  · simp [hA] at h

/-- The exact state produced by a successful `apply_token_response`. -/
theorem apply_token_response_ok_value {tr : TokenResp} {now : Int} {st st2 : St}
    (h : apply_token_response tr now st = .ok st2) :
    st2 = save_config
      { mem :=
          { st.mem with
            access_token := tr.access_token,
            refresh_token :=
              if truthyS tr.refresh_token then tr.refresh_token
              else st.mem.refresh_token,
            expires_at := some (now + tr.expires_in.getD 0) },
        disk := st.disk } := by
  unfold apply_token_response at h
  by_cases hA : truthyS tr.access_token
  · by_cases hR : truthyS tr.refresh_token <;>
      simp [hA, hR] at h <;> simp [← h, hR]
  · simp [hA] at h

/-- C5: for a well-formed token response, `apply_token_response` stores the
response's `refresh_token` only when the response carried a truthy one,
leaves the previously stored `refresh_token` unchanged when the response had
none, and leaves every field other than `access_token`, `refresh_token` and
`expires_at` unchanged. -/
theorem C5_refresh_token_frame (tr : TokenResp) (now : Int) (st : St)
    (h : truthyS tr.access_token = true) :
    ∃ st2, apply_token_response tr now st = .ok st2 ∧
      st2.mem.refresh_token =
        (if truthyS tr.refresh_token then tr.refresh_token else st.mem.refresh_token) ∧
      (tr.refresh_token = none → st2.mem.refresh_token = st.mem.refresh_token) ∧
      st2.mem.client_id = st.mem.client_id ∧
      st2.mem.client_secret = st.mem.client_secret ∧
      st2.mem.authorization_code = st.mem.authorization_code ∧
      st2.mem.code_verifier = st.mem.code_verifier ∧
      st2.mem.username = st.mem.username ∧
      st2.mem.extra = st.mem.extra := by
  cases hap : apply_token_response tr now st with
  | error e =>
    exfalso
    simp [apply_token_response, h] at hap
  | ok st2 =>
    have hshape := apply_token_response_ok_value hap
    refine ⟨st2, rfl, ?_, ?_, ?_, ?_, ?_, ?_, ?_, ?_⟩ <;> rw [hshape]
    · simp [save_config]
    · intro hnone
      simp [save_config, hnone, truthyS]
    · simp [save_config]
    · simp [save_config]
    · simp [save_config]
    · simp [save_config]
    · simp [save_config]
    · simp [save_config]

/-- C5 witness at a concrete response and record. -/
theorem C5_refresh_token_frame_witness :
    truthyS (TokenResp.mk (some "a") none none []).access_token = true ∧
    ∃ st2,
      apply_token_response { access_token := some "a" } 7
        { mem := { refresh_token := some "old" }, disk := {} } = .ok st2 ∧
      st2.mem.refresh_token =
        (if truthyS (TokenResp.mk (some "a") none none []).refresh_token
         then (TokenResp.mk (some "a") none none []).refresh_token
         else some "old") ∧
      ((TokenResp.mk (some "a") none none []).refresh_token = none →
        st2.mem.refresh_token = some "old") ∧
      st2.mem.client_id = none ∧ st2.mem.client_secret = none ∧
      st2.mem.authorization_code = none ∧ st2.mem.code_verifier = none ∧
      st2.mem.username = none ∧ st2.mem.extra = [] :=
  ⟨by decide,
   C5_refresh_token_frame { access_token := some "a" } 7
     { mem := { refresh_token := some "old" }, disk := {} } (by decide)⟩

/-- C6: applying the same well-formed token response twice at the same `now`
leaves the same stored `access_token` and `expires_at` as applying it once. -/
theorem C6_apply_idempotent (tr : TokenResp) (now : Int) (st st1 st2 : St)
    (h1 : apply_token_response tr now st = .ok st1)
    (h2 : apply_token_response tr now st1 = .ok st2) :
    st2.mem.access_token = st1.mem.access_token ∧
    st2.mem.expires_at = st1.mem.expires_at := by
  obtain ⟨-, ha1, he1, -⟩ := apply_token_response_ok_shape h1
  obtain ⟨-, ha2, he2, -⟩ := apply_token_response_ok_shape h2
  exact ⟨ha2.trans ha1.symm, he2.trans he1.symm⟩

/-- C6 witness at a concrete response and record. -/
theorem C6_apply_idempotent_witness :
    ({ mem := { access_token := some "a", expires_at := some 12 },
       disk := { access_token := some "a", expires_at := some 12 } } : St).mem.access_token =
      ({ mem := { access_token := some "a", expires_at := some 12 },
         disk := { access_token := some "a", expires_at := some 12 } } : St).mem.access_token ∧
    ({ mem := { access_token := some "a", expires_at := some 12 },
       disk := { access_token := some "a", expires_at := some 12 } } : St).mem.expires_at =
      ({ mem := { access_token := some "a", expires_at := some 12 },
         disk := { access_token := some "a", expires_at := some 12 } } : St).mem.expires_at :=
  C6_apply_idempotent { access_token := some "a", expires_in := some 2 } 10
    { mem := {}, disk := {} } _ _ rfl rfl

/-- C9: a watch-list item whose node identifier is absent or equals 0 (a
falsy value) is silently dropped by `build_output_list`. -/
theorem C9_drop_untruthy_id (m : List (Int × JEntry)) (item : AItem)
    (rest : List AItem)
    (h : (item.node.getD {}).id = none ∨ (item.node.getD {}).id = some 0) :
    build_output_list (item :: rest) m = build_output_list rest m := by
  rcases h with h | h <;> simp [build_output_list, h]

/-- C9 witness: the entry with node id 0 is dropped. -/
theorem C9_drop_untruthy_id_witness :
    build_output_list [{ node := some { id := some 0, title := some "Z" } }] [] =
      build_output_list [] [] :=
  C9_drop_untruthy_id [] { node := some { id := some 0, title := some "Z" } } []
    (Or.inr rfl)

/-- C2 counterexample: a credential record whose `access_token` is present
and whose `expires_at` equals now + 60 — i.e. at least 60 seconds in the
future, as the claim demands — is NOT accepted by the fast path: with no
other credential material `ensure_token` raises instead of returning
immediately with zero network calls. -/
theorem C2_counterexample :
    ensure_token 0 none none
      { mem := {},
        disk := { client_id := some "c", client_secret := some "s",
                  access_token := some "a", expires_at := some 60 } } =
      .error "Could not obtain access token. Provide a valid refresh_token or authorization_code+code_verifier in config." :=
  rfl

/-- C2 (amended): whenever the stored `access_token` is truthy and
`expires_at` is strictly more than 60 seconds in the future
(`now + 60 < expires_at`), `ensure_token` returns immediately with zero
network calls, leaving the durable record unmodified (the in-memory copy is
merely reloaded from it). -/
theorem C2_fast_path (now : Int) (rr cr : Option TokenResp) (st : St)
    (h1 : truthyS st.disk.access_token = true)
    (h2 : now + 60 < st.disk.expires_at.getD 0) :
    ensure_token now rr cr st = .ok ({ mem := st.disk, disk := st.disk }, 0) := by
  unfold ensure_token load_config
  simp [token_is_valid, h1, h2]

/-- C2 witness: a concrete valid record is accepted unchanged with zero
network calls. -/
theorem C2_fast_path_witness :
    ensure_token 0 none none
      { mem := {}, disk := { access_token := some "a", expires_at := some 100 } } =
      .ok ({ mem := { access_token := some "a", expires_at := some 100 },
             disk := { access_token := some "a", expires_at := some 100 } }, 0) :=
  C2_fast_path 0 none none
    { mem := {}, disk := { access_token := some "a", expires_at := some 100 } }
    (by decide) (by decide)

/-- C7: cross-reference key derivation prefers a parseable `mal_id` embedded
in the value over the top-level string key, falls back to parsing the string
key, and skips the entry silently when neither parses; in particular the
document entry `"5" : mal_id 42, imdb_id "tt1"` lands under key 42 and not
under key 5. -/
theorem C7_key_derivation :
    (∀ key val n, mal_id_from_val val = some n → deriveKey key val = some n) ∧
    (∀ key val, mal_id_from_val val = none → deriveKey key val = pyIntOfString key) ∧
    (∀ pre post key val, deriveKey key val = none →
      fetch_anime_ids_map (pre ++ (key, val) :: post) =
        fetch_anime_ids_map (pre ++ post)) ∧
    fetch_anime_ids_map
        [("5", .dict [("mal_id", .jnum 42), ("imdb_id", .jstr "tt1")])] =
      [(42, .dict [("mal_id", .jnum 42), ("imdb_id", .jstr "tt1")])] ∧
    dget
      (fetch_anime_ids_map
        [("5", .dict [("mal_id", .jnum 42), ("imdb_id", .jstr "tt1")])]) 5 =
      none := by
  refine ⟨?_, ?_, ?_, by decide, by decide⟩
  · intro key val n h
    simp [deriveKey, h]
  · intro key val h
    simp [deriveKey, h]
  · intro pre post key val h
    unfold fetch_anime_ids_map
    simp only [List.foldl_append, List.foldl_cons, h]

/-- C7 witness: the preference and the silent skip at concrete entries. -/
theorem C7_key_derivation_witness :
    deriveKey "5" (.dict [("mal_id", .jnum 42)]) = some 42 ∧
    fetch_anime_ids_map [("abc", .prim .jnull)] = fetch_anime_ids_map [] :=
  ⟨C7_key_derivation.1 "5" (.dict [("mal_id", .jnum 42)]) 42 (by decide),
   by
    have h := C7_key_derivation.2.2.1 [] [] "abc" (.prim .jnull) (by decide)
    simpa using h⟩

/-- A successful `code_exchange_flow` run applied a token response coming
from the authorization-code oracle. -/
theorem code_exchange_flow_ok_shape {now : Int} {cr : Option TokenResp}
    {st st2 : St} {c n : Nat}
    (h : code_exchange_flow now cr st c = .ok (st2, n)) :
    ∃ tr, cr = some tr ∧ apply_token_response tr now st = .ok st2 := by
  unfold code_exchange_flow at h
  by_cases hcv : truthyS st.mem.authorization_code && truthyS st.mem.code_verifier
  · rw [if_pos hcv] at h
    cases cr with
    | none => simp at h
    | some tr =>
      dsimp only at h
      by_cases ht : truthyTR tr
      · rw [if_pos ht] at h
        cases hap : apply_token_response tr now st with
        | ok stx =>
          rw [hap] at h
          simp at h
          rw [h.1] at hap
          exact ⟨tr, rfl, hap⟩
        | error e =>
          rw [hap] at h
          simp at h
      · rw [if_neg ht] at h
        simp at h
  · rw [if_neg hcv] at h
    simp at h

/-- A successful `ensure_token` run either took the fast path (the loaded
record already held a valid token) or applied a token response supplied by
one of the two exchange oracles. -/
theorem ensure_token_ok_shape {now : Int} {rr cr : Option TokenResp}
    {st st2 : St} {n : Nat}
    (h : ensure_token now rr cr st = .ok (st2, n)) :
    (st2 = load_config st ∧ token_is_valid now st.disk = true) ∨
    (∃ tr, (rr = some tr ∨ cr = some tr) ∧
      apply_token_response tr now (load_config st) = .ok st2) := by
  unfold ensure_token at h
  by_cases hv : token_is_valid now (load_config st).mem
  · rw [if_pos hv] at h
    simp at h
    exact Or.inl ⟨h.1.symm, hv⟩
  · rw [if_neg hv] at h
    by_cases hcid : truthyS (load_config st).mem.client_id &&
        truthyS (load_config st).mem.client_secret
    · simp only [hcid, Bool.not_true, Bool.false_eq_true, if_false] at h
      by_cases hrt : truthyS (load_config st).mem.refresh_token
      · rw [if_pos hrt] at h
        cases rr with
        | none =>
          obtain ⟨tr, htr, hap⟩ := code_exchange_flow_ok_shape h
          exact Or.inr ⟨tr, Or.inr htr, hap⟩
        | some tr =>
          dsimp only at h
          by_cases ht : truthyTR tr
          · rw [if_pos ht] at h
            cases hap : apply_token_response tr now (load_config st) with
            | ok stx =>
              rw [hap] at h
              simp at h
              rw [h.1] at hap
              exact Or.inr ⟨tr, Or.inl rfl, hap⟩
            | error e =>
              rw [hap] at h
              simp at h
          · rw [if_neg ht] at h
            obtain ⟨tr2, htr, hap⟩ := code_exchange_flow_ok_shape h
            exact Or.inr ⟨tr2, Or.inr htr, hap⟩
      · rw [if_neg hrt] at h
        obtain ⟨tr, htr, hap⟩ := code_exchange_flow_ok_shape h
        exact Or.inr ⟨tr, Or.inr htr, hap⟩
    · simp only [hcid, Bool.not_false, if_true] at h
      simp at h

/-- C1 counterexample: `ensure_token` returns successfully after a token
exchange whose response omitted `expires_in`, and the persisted record then
has `expires_at = now` — an access token that is NOT non-expired
(`expires_at` is not strictly in the future), contradicting the claimed
postcondition. -/
theorem C1_counterexample :
    ensure_token 100 (some { access_token := some "a" }) none
      { mem := {},
        disk := { client_id := some "c", client_secret := some "s",
                  refresh_token := some "r" } } =
      .ok ({ mem := { client_id := some "c", client_secret := some "s",
                      refresh_token := some "r", access_token := some "a",
                      expires_at := some 100 },
             disk := { client_id := some "c", client_secret := some "s",
                       refresh_token := some "r", access_token := some "a",
                       expires_at := some 100 } }, 1) ∧
    ¬ (100 < (100 : Int)) :=
  ⟨rfl, by decide⟩

/-- C1 (amended): when every token response the exchange oracles can supply
carries a positive `expires_in`, a successful `ensure_token` leaves a record
with a truthy access token whose `expires_at` is strictly in the future, and
that record is persisted (`disk = mem`); when a response omits `expires_in`
the stored `expires_at` equals `now` (default 0), i.e. already expired. -/
theorem C1_ensure_token_postcondition (now : Int) (rr cr : Option TokenResp)
    (st : St) {st2 : St} {n : Nat}
    (hr : ∀ tr, rr = some tr → 0 < tr.expires_in.getD 0)
    (hc : ∀ tr, cr = some tr → 0 < tr.expires_in.getD 0)
    (h : ensure_token now rr cr st = .ok (st2, n)) :
    truthyS st2.mem.access_token = true ∧
    now < st2.mem.expires_at.getD 0 ∧
    st2.disk = st2.mem := by
  rcases ensure_token_ok_shape h with ⟨rfl, hv⟩ | ⟨tr, htr, hap⟩
  · unfold token_is_valid at hv
    simp at hv
    refine ⟨hv.1, ?_, rfl⟩
    have h2 := hv.2
    simp only [load_config]
    omega
  · obtain ⟨hA, hAT, hEXP, hDM⟩ := apply_token_response_ok_shape hap
    refine ⟨by rw [hAT]; exact hA, ?_, hDM⟩
    rw [hEXP]
    have hpos : 0 < tr.expires_in.getD 0 := by
      rcases htr with h1 | h1
      · exact hr tr h1
      · exact hc tr h1
    simp
    omega

/-- C1 witness: a refresh exchange with `expires_in = 3600` yields a
non-expired, persisted token. -/
theorem C1_ensure_token_postcondition_witness :
    truthyS ({ mem := { client_id := some "c", client_secret := some "s",
                        refresh_token := some "r", access_token := some "a",
                        expires_at := some 3700 },
               disk := { client_id := some "c", client_secret := some "s",
                         refresh_token := some "r", access_token := some "a",
                         expires_at := some 3700 } } : St).mem.access_token = true ∧
    (100 : Int) <
      ({ mem := { client_id := some "c", client_secret := some "s",
                  refresh_token := some "r", access_token := some "a",
                  expires_at := some 3700 },
         disk := { client_id := some "c", client_secret := some "s",
                   refresh_token := some "r", access_token := some "a",
                   expires_at := some 3700 } } : St).mem.expires_at.getD 0 ∧
    ({ mem := { client_id := some "c", client_secret := some "s",
                refresh_token := some "r", access_token := some "a",
                expires_at := some 3700 },
       disk := { client_id := some "c", client_secret := some "s",
                 refresh_token := some "r", access_token := some "a",
                 expires_at := some 3700 } } : St).disk =
      ({ mem := { client_id := some "c", client_secret := some "s",
                  refresh_token := some "r", access_token := some "a",
                  expires_at := some 3700 },
         disk := { client_id := some "c", client_secret := some "s",
                   refresh_token := some "r", access_token := some "a",
                   expires_at := some 3700 } } : St).mem :=
  C1_ensure_token_postcondition 100
    (some { access_token := some "a", expires_in := some 3600 }) none
    { mem := {},
      disk := { client_id := some "c", client_secret := some "s",
                refresh_token := some "r" } }
    (fun tr htr => by cases htr; decide)
    (fun tr htr => by cases htr)
    rfl

/-- Lookup into a cons of an association list. -/
theorem dget_cons (p : Int × JEntry) (t : List (Int × JEntry)) (k : Int) :
    dget (p :: t) k = if p.1 = k then some p.2 else dget t k := by
  by_cases h : p.1 = k
  · rw [if_pos h]
    unfold dget
    rw [List.find?_cons_of_pos]
    · rfl
    · simp [h]
  · rw [if_neg h]
    unfold dget
    rw [List.find?_cons_of_neg]
    simp [h]

/-- Lookup after the in-place overwrite branch of `dinsert`. -/
theorem dget_map_replace (k k' : Int) (v : JEntry) (m : List (Int × JEntry)) :
    dget (m.map (fun p => if p.1 = k then (k, v) else p)) k' =
      if k' = k then (if m.any (fun p => p.1 = k) then some v else none)
      else dget m k' := by
  induction m with
  | nil =>
    by_cases hk : k' = k <;> simp [dget, hk]
  | cons p t ih =>
    simp only [List.map_cons, List.any_cons]
    by_cases hp : p.1 = k
    · rw [if_pos hp]
      by_cases hk : k' = k
      · subst hk
        simp [dget_cons, ih, hp]
      · have hk' : ¬ k = k' := fun e => hk e.symm
        simp [dget_cons, ih, hp, hk, hk']
    · rw [if_neg hp]
      by_cases hk : k' = k
      · subst hk
        rw [dget_cons, if_neg hp, ih, if_pos rfl]
        rw [if_pos rfl]
        simp only [decide_eq_false hp, Bool.false_or]
      · simp [dget_cons, ih, hk]

/-- Lookup after a Python-style dictionary insertion: the inserted key now
maps to the new value, every other key is untouched. -/
theorem dget_dinsert (k k' : Int) (v : JEntry) (m : List (Int × JEntry)) :
    dget (dinsert k v m) k' = if k' = k then some v else dget m k' := by
  unfold dinsert
  by_cases hany : m.any (fun p => p.1 = k)
  · rw [if_pos hany, dget_map_replace]
    by_cases hk : k' = k <;> simp [hk, hany]
  · rw [if_neg hany]
    by_cases hk : k' = k
    · subst hk
      have hnone : m.find? (fun p => p.1 = k') = none := by
        rw [List.find?_eq_none]
        intro p hp
        simp only [List.any_eq_true] at hany
        simp
        intro e
        exact hany ⟨p, hp, by simp [e]⟩
      unfold dget
      rw [List.find?_append, hnone]
      simp
    · unfold dget
      rw [List.find?_append]
      have h1 : List.find? (fun p => p.1 = k') [(k, v)] = none := by
        rw [List.find?_eq_none]
        intro p hp
        simp at hp
        subst hp
        simp
        exact fun e => hk (Eq.symm e)
      rw [h1, if_neg hk]
      simp

/-- The overwrite branch of `dinsert` leaves the key list unchanged. -/
theorem keys_map_replace (k : Int) (v : JEntry) (m : List (Int × JEntry)) :
    (m.map (fun p => if p.1 = k then (k, v) else p)).map Prod.fst =
      m.map Prod.fst := by
  induction m with
  | nil => rfl
  | cons p t ih =>
    by_cases hp : p.1 = k <;> simp [hp, ih]

/-- `dinsert` preserves distinctness of the key list. -/
theorem keys_nodup_dinsert (k : Int) (v : JEntry) (m : List (Int × JEntry))
    (h : (m.map Prod.fst).Nodup) : ((dinsert k v m).map Prod.fst).Nodup := by
  unfold dinsert
  by_cases hany : m.any (fun p => p.1 = k)
  · rw [if_pos hany, keys_map_replace]
    exact h
  · rw [if_neg hany, List.map_append]
    refine List.Nodup.append h (by simp) ?_
    intro a ha hb
    simp at hb
    subst hb
    obtain ⟨p, hp, hpk⟩ := List.mem_map.mp ha
    simp only [List.any_eq_true] at hany
    exact hany ⟨p, hp, by simp [hpk]⟩

/-- One more document entry without a derivable key leaves the map as is. -/
theorem fetch_map_append_none {ys : List (String × JEntry)} {e : String × JEntry}
    (h : deriveKey e.1 e.2 = none) :
    fetch_anime_ids_map (ys ++ [e]) = fetch_anime_ids_map ys := by
  simp [fetch_anime_ids_map, List.foldl_append, h]

/-- One more document entry deriving key `k0` updates the map by `dinsert`. -/
theorem fetch_map_append_some {ys : List (String × JEntry)} {e : String × JEntry}
    {k0 : Int} (h : deriveKey e.1 e.2 = some k0) :
    fetch_anime_ids_map (ys ++ [e]) = dinsert k0 e.2 (fetch_anime_ids_map ys) := by
  simp [fetch_anime_ids_map, List.foldl_append, h]

theorem last_derived_append_none {ys : List (String × JEntry)}
    {e : String × JEntry} (k : Int) (h : deriveKey e.1 e.2 = none) :
    last_derived (ys ++ [e]) k = last_derived ys k := by
  simp [last_derived, List.filter_append, h]

theorem last_derived_append_some_eq {ys : List (String × JEntry)}
    {e : String × JEntry} {k0 : Int} (h : deriveKey e.1 e.2 = some k0) :
    last_derived (ys ++ [e]) k0 = some e.2 := by
  simp [last_derived, List.filter_append, h, List.getLast?_concat]

theorem last_derived_append_some_ne {ys : List (String × JEntry)}
    {e : String × JEntry} {k0 k : Int} (h : deriveKey e.1 e.2 = some k0)
    (hk : k ≠ k0) : last_derived (ys ++ [e]) k = last_derived ys k := by
  simp [last_derived, List.filter_append, h, Ne.symm hk]

/-- C10: the cross-reference map built by `fetch_anime_ids_map` holds at
most one record per integer key (its key list is duplicate-free), and the
record stored under a key is the value of the last document entry deriving
that key — a later entry overwrites an earlier one. -/
theorem C10_last_wins (payload : List (String × JEntry)) :
    ((fetch_anime_ids_map payload).map Prod.fst).Nodup ∧
    ∀ k, dget (fetch_anime_ids_map payload) k = last_derived payload k := by
  induction payload using List.reverseRecOn with
  | nil =>
    exact ⟨by simp [fetch_anime_ids_map],
           fun k => by simp [fetch_anime_ids_map, last_derived, dget]⟩
  | append_singleton ys e ih =>
    obtain ⟨ihn, ihl⟩ := ih
    cases hd : deriveKey e.1 e.2 with
    | none =>
      rw [fetch_map_append_none hd]
      refine ⟨ihn, fun k => ?_⟩
      rw [ihl k, last_derived_append_none k hd]
    | some k0 =>
      rw [fetch_map_append_some hd]
      refine ⟨keys_nodup_dinsert k0 e.2 _ ihn, fun k => ?_⟩
      rw [dget_dinsert]
      by_cases hk : k = k0
      · subst hk
        rw [if_pos rfl, last_derived_append_some_eq hd]
      · rw [if_neg hk, last_derived_append_some_ne hd hk]
        exact ihl k


/-- Enriching against a JSON-object value never raises. -/
theorem enrich_dict_ok (fs : List (String × JPrim)) (t : Option String) (i : Int) :
    ∃ e, enrich (.dict fs) t i = .ok e :=
  ⟨_, rfl⟩

/-- Whatever `enrich` returns keeps the base fields `title` and `malId`. -/
theorem enrich_ok_base {mv : JEntry} {t : Option String} {i : Int} {e : OutEntry}
    (h : enrich mv t i = .ok e) : e.title = t ∧ e.malId = i := by
  cases mv with
  | dict fs =>
    unfold enrich at h
    injection h with h
    subst h
    exact ⟨rfl, rfl⟩
  | prim p =>
    cases p with
    | jnum n => simp [enrich] at h
    | jnull =>
      unfold enrich at h
      injection h with h
      subst h
      exact ⟨rfl, rfl⟩
    | jstr s =>
      simp only [enrich] at h
      by_cases h1 : strContains s "tvdb_id" = true
      · rw [if_pos h1] at h
        simp at h
      · rw [if_neg h1] at h
        by_cases h2 : strContains s "imdb_id" = true
        · rw [if_pos h2] at h
          simp at h
        · rw [if_neg h2] at h
          injection h with h
          subst h
          exact ⟨rfl, rfl⟩

/-- A successful `dget` returns the value of a member binding for that key. -/
theorem dget_mem {m : List (Int × JEntry)} {k : Int} {mv : JEntry}
    (h : dget m k = some mv) : ∃ p, p ∈ m ∧ p.2 = mv ∧ p.1 = k := by
  unfold dget at h
  cases hf : m.find? (fun p => p.1 = k) with
  | none => rw [hf] at h; simp at h
  | some pr =>
    rw [hf] at h
    simp at h
    have hmem := List.mem_of_find?_eq_some hf
    have hpred := List.find?_some hf
    exact ⟨pr, hmem, h, by simpa using hpred⟩

/-- An item whose effective node id is absent or 0 is skipped by the loop. -/
theorem build_output_list_skip {m : List (Int × JEntry)} {item : AItem}
    {rest : List AItem}
    (h : (item.node.getD {}).id = none ∨ (item.node.getD {}).id = some 0) :
    build_output_list (item :: rest) m = build_output_list rest m := by
  rcases h with h | h <;> simp [build_output_list, h]

/-- C8: when the cross-reference map's values are records (as the data model
specifies), `build_output_list` succeeds and equals a `filterMap` over the
input — so retained entries appear in the input's relative order; every
emitted record carries the node's `title` and its id as `malId`; and an
entry whose id has no match in the map is still emitted, with only the base
fields (no `id`, no `imdb_id`). -/
theorem C8_merge_order_and_base_fields (items : List AItem)
    (m : List (Int × JEntry)) (hm : ∀ p ∈ m, isDictE p.2 = true) :
    build_output_list items m = .ok (items.filterMap (merge_item m)) ∧
    (∀ item e, merge_item m item = some e →
      e.title = (item.node.getD {}).title ∧
      (item.node.getD {}).id = some e.malId) ∧
    (∀ i t, i ≠ 0 → dget m i = none →
      merge_item m { node := some { id := some i, title := t } } =
        some { title := t, malId := i }) := by
  refine ⟨?_, ?_, ?_⟩
  · induction items with
    | nil => simp [build_output_list]
    | cons item rest ih =>
      rw [List.filterMap_cons]
      cases hid : (item.node.getD {}).id with
      | none =>
        rw [build_output_list_skip (Or.inl hid), ih]
        simp [merge_item, hid]
      | some i =>
        by_cases hi : i = 0
        · subst hi
          rw [build_output_list_skip (Or.inr hid), ih]
          simp [merge_item, hid]
        · cases hdg : dget m i with
          | none =>
            simp [build_output_list, hid, hi, hdg, ih, merge_item]
          | some mv =>
            obtain ⟨p, hpmem, hp2, hp1⟩ := dget_mem hdg
            have hdict : isDictE mv = true := hp2 ▸ hm p hpmem
            cases mv with
            | prim q => simp [isDictE] at hdict
            | dict fs =>
              by_cases ht : truthyE (.dict fs)
              · obtain ⟨e, he⟩ :=
                  enrich_dict_ok fs (item.node.getD {}).title i
                simp [build_output_list, hid, hi, hdg, ht, he, ih, merge_item]
              · simp [build_output_list, hid, hi, hdg, ht, ih, merge_item]
  · intro item e h
    unfold merge_item at h
    cases hid : (item.node.getD {}).id with
    | none => rw [hid] at h; simp at h
    | some i =>
      rw [hid] at h
      dsimp only at h
      by_cases hi : i = 0
      · rw [if_pos hi] at h
        simp at h
      · rw [if_neg hi] at h
        cases hdg : dget m i with
        | none =>
          rw [hdg] at h
          injection h with h
          subst h
          exact ⟨rfl, rfl⟩
        | some mv =>
          rw [hdg] at h
          dsimp only at h
          by_cases ht : truthyE mv
          · rw [if_pos ht] at h
            cases he : enrich mv (item.node.getD {}).title i with
            | ok e2 =>
              rw [he] at h
              injection h with h
              subst h
              obtain ⟨h1, h2⟩ := enrich_ok_base he
              exact ⟨h1, by rw [h2]⟩
            | error msg =>
              rw [he] at h
              simp at h
          · rw [if_neg ht] at h
            injection h with h
            subst h
            exact ⟨rfl, rfl⟩
  · intro i t hi hdg
    simp [merge_item, hi, hdg]

/-- C8 witness: a two-entry list, one entry matched (gaining `imdb_id`), the
other unmatched (kept with base fields only), in input order. -/
theorem C8_merge_order_and_base_fields_witness :
    build_output_list
        [{ node := some { id := some 1, title := some "A" } },
         { node := some { id := some 2, title := some "B" } }]
        [(1, .dict [("imdb_id", .jstr "tt9")])] =
      .ok ([{ node := some { id := some 1, title := some "A" } },
            { node := some { id := some 2, title := some "B" } }].filterMap
        (merge_item [(1, .dict [("imdb_id", .jstr "tt9")])])) :=
  (C8_merge_order_and_base_fields
    [{ node := some { id := some 1, title := some "A" } },
     { node := some { id := some 2, title := some "B" } }]
    [(1, .dict [("imdb_id", .jstr "tt9")])] (by decide)).1

/-- C3 counterexample: in a single `fetch_all_animelist` call whose first
page and second page each answer 401 once, the 401-recovery procedure runs
twice — once per page — refuting "at most once per fetch call". -/
theorem C3_counterexample :
    (fetch_all_animelist 0
      (fun _ => (some { access_token := some "t", expires_in := some 3600 }, none))
      "u" "watching"
      [{ status := 401, text := "unauthorized" },
       { status := 200, next := some "page2" },
       { status := 401, text := "unauthorized" },
       { status := 200 }]
      { mem := {},
        disk := { client_id := some "c", client_secret := some "s",
                  refresh_token := some "r", access_token := some "a0",
                  expires_at := some 10000 } }).recoveries = 2 :=
  rfl


/-- Each 401 response accounts for at most one recovery: the recovery count
of a `fetch_pages` run is bounded by the starting count plus the number of
401 responses in the remaining trace. -/
theorem fetch_pages_recoveries_le (now : Int)
    (env : Nat → Option TokenResp × Option TokenResp) (trace : List PageResp)
    (k : Nat) (st : St) (url : String) (p : Option (String × Nat))
    (acc : List AItem) (recov : Nat) (log : List ReqLog) :
    (fetch_pages now env trace k st url p acc recov log).recoveries ≤
      recov + (trace.filter (fun r => r.status = 401)).length := by
  refine (fetch_pages.induct now env
    (fun tr k2 st2 url2 p2 acc2 recov2 _ =>
      ∀ lg, (fetch_pages now env tr k2 st2 url2 p2 acc2 recov2 lg).recoveries ≤
        recov2 + (tr.filter (fun r => r.status = 401)).length)
    ?_ ?_ ?_ ?_ ?_ ?_ ?_ ?_ ?_ trace k st url p acc recov log) log
  · intros
    simp [fetch_pages]
  · intros
    simp_all [fetch_pages, List.filter_cons]
  · intros
    simp_all [fetch_pages, List.filter_cons]
  · intros
    simp_all [fetch_pages, List.filter_cons]
  · intros
    simp_all [fetch_pages, List.filter_cons]
  · intro r k2 stv url2 p2 acc2 recov2 lg0 lg1 h401 st1 st2 snd heq r2 rest2
      lg2 h200 s hnext ih lg
    simp_all [fetch_pages, List.filter_cons]
    exact le_trans (ih _) (by omega)
  · intros
    simp_all [fetch_pages, List.filter_cons]
  · intros
    simp_all [fetch_pages, List.filter_cons]
  · intro r rest k2 stv url2 p2 acc2 recov2 lg0 lg1 hn401 h200 s hnext ih lg
    simp_all [fetch_pages, List.filter_cons]

/-- C3 (amended): within one `fetch_all_animelist` call the 401-recovery
procedure runs at most once per 401 page response — its total number of runs
is bounded by the number of 401 responses received, not by one per call
(a multi-page fetch may recover once per page, as the counterexample shows). -/
theorem C3_recovery_bound (now : Int)
    (env : Nat → Option TokenResp × Option TokenResp) (username status : String)
    (trace : List PageResp) (st : St) :
    (fetch_all_animelist now env username status trace st).recoveries ≤
      (trace.filter (fun r => r.status = 401)).length := by
  unfold fetch_all_animelist
  cases hens : ensure_token now (env 0).1 (env 0).2 st with
  | error e => simp
  | ok pr =>
    obtain ⟨st1, n1⟩ := pr
    have hb := fetch_pages_recoveries_le now env trace 1 st1
      (MAL_API_BASE ++ "users/" ++ username ++ "/animelist")
      (some (status, 100)) [] 0 []
    simpa using hb

/-- C4: a page answering 401 triggers exactly one discard-and-retry; when
the retried request for the same URL again returns a non-200 status (for
example a second consecutive 401), the fetch stops right there with the
upstream error carrying that status code and body — it does not loop. -/
theorem C4_second_failure_errors (now : Int)
    (env : Nat → Option TokenResp × Option TokenResp) (k : Nat)
    (r1 r2 : PageResp) (rest : List PageResp) (st st2 : St) (n2 : Nat)
    (url : String) (p : Option (String × Nat)) (acc : List AItem) (recov : Nat)
    (log : List ReqLog) (h1 : r1.status = 401) (h2 : r2.status ≠ 200)
    (hens : ensure_token now (env k).1 (env k).2 (discard_access_token st) =
      .ok (st2, n2)) :
    fetch_pages now env (r1 :: r2 :: rest) k st url p acc recov log =
      { result := .error
          ("Failed to fetch animelist: " ++ toString r2.status ++ " " ++ r2.text),
        state := st2, recoveries := recov + 1,
        log := log ++
          [{ url := url, params := p, token := st.mem.access_token },
           { url := url, params := none, token := st2.mem.access_token }] } := by
  simp [fetch_pages, h1, hens, h2]

/-- C4 witness: two consecutive 401 answers for the same page produce the
upstream error for the second one after a single recovery. -/
theorem C4_second_failure_errors_witness :
    fetch_pages 0
      (fun _ => (some { access_token := some "t", expires_in := some 3600 }, none))
      [{ status := 401, text := "x" }, { status := 401, text := "y" }] 1
      { mem := { client_id := some "c", client_secret := some "s",
                 refresh_token := some "r", access_token := some "a0",
                 expires_at := some 10000 },
        disk := { client_id := some "c", client_secret := some "s",
                  refresh_token := some "r", access_token := some "a0",
                  expires_at := some 10000 } } "u" none [] 0 [] =
      { result := .error
          ("Failed to fetch animelist: " ++ toString ((401 : Nat)) ++ " " ++ "y"),
        state := { mem := { client_id := some "c", client_secret := some "s",
                            refresh_token := some "r", access_token := some "t",
                            expires_at := some 3600 },
                   disk := { client_id := some "c", client_secret := some "s",
                             refresh_token := some "r", access_token := some "t",
                             expires_at := some 3600 } },
        recoveries := 1,
        log := [{ url := "u", params := none, token := some "a0" },
                { url := "u", params := none, token := some "t" }] } :=
  C4_second_failure_errors 0
    (fun _ => (some { access_token := some "t", expires_in := some 3600 }, none))
    1 { status := 401, text := "x" } { status := 401, text := "y" } []
    { mem := { client_id := some "c", client_secret := some "s",
               refresh_token := some "r", access_token := some "a0",
               expires_at := some 10000 },
      disk := { client_id := some "c", client_secret := some "s",
                refresh_token := some "r", access_token := some "a0",
                expires_at := some 10000 } }
    { mem := { client_id := some "c", client_secret := some "s",
               refresh_token := some "r", access_token := some "t",
               expires_at := some 3600 },
      disk := { client_id := some "c", client_secret := some "s",
                refresh_token := some "r", access_token := some "t",
                expires_at := some 3600 } }
    1 "u" none [] 0 [] (by decide) (by decide) rfl
